import Mathlib

/-!
Verification of the GrowMaster scheduling core: a shallow embedding of
`core/schedulers/intelligent_task_generator.py`,
`core/schedulers/notification_system.py` and
`core/schedulers/multi_garden_coordinator.py`.

Conventions of the embedding:
* timestamps are minutes on an integer time line; one day is 1440 minutes;
  Python's `timedelta.days` floors, so day counts use `Int.fdiv`;
* SQL rows become Lean structures; a SELECT is a filter/find over the lists
  held in `Store`; `ORDER BY` is a stable insertion sort (SQLite leaves ties
  unspecified; within the embedding ties keep table order);
* Python `list.sort` (stable) is `List.insertionSort` with a total `≤`-style
  relation on the sort key; `reverse=True` sorts with the reversed key;
* Python floats are rationals (`ℚ`); `round(x, 1)` is decimal
  round-half-to-even on rationals.
-/

namespace GrowMaster

/-- One day in minutes. -/
def dayMinutes : Int := 1440

/-- Midnight of the calendar day holding minute `t` (Python `strftime('%Y-%m-%d')`
or `datetime.replace(hour=0, ...)`). -/
def dayFloor (t : Int) : Int := (t.fdiv dayMinutes) * dayMinutes

/-- `GrowthStage` enum of `intelligent_task_generator.py`. -/
inductive GrowthStage where
  | seed
  | germination
  | seedling
  | vegetative
  | flowering
  | harvest
  | curing
deriving DecidableEq, Repr

/-- The `.value` string of each `GrowthStage` member. -/
def GrowthStage.value : GrowthStage → String
  | .seed => "seed"
  | .germination => "germination"
  | .seedling => "seedling"
  | .vegetative => "vegetative"
  | .flowering => "flowering"
  | .harvest => "harvest"
  | .curing => "curing"

/-- `TaskType` enum of `intelligent_task_generator.py`. -/
inductive TaskType where
  | watering
  | feeding
  | monitoring
  | pruning
  | training
  | harvesting
  | maintenance
  | environmental
deriving DecidableEq, Repr

/-- The `.value` string of each `TaskType` member. -/
def TaskType.value : TaskType → String
  | .watering => "watering"
  | .feeding => "feeding"
  | .monitoring => "monitoring"
  | .pruning => "pruning"
  | .training => "training"
  | .harvesting => "harvesting"
  | .maintenance => "maintenance"
  | .environmental => "environmental"

/-- `TaskTemplate` dataclass. -/
structure TaskTemplate where
  name : String
  description : String
  taskType : TaskType
  growthStage : GrowthStage
  daysFromStageStart : Int
  frequencyDays : Int
  priority : String
  estimatedDuration : Int
  requiredMaterials : List String
  instructions : String
deriving DecidableEq, Repr

/-- `_get_hydroponic_templates`. -/
def hydroponicTemplates : List TaskTemplate :=
  [ { name := "Check Seed Germination"
    , description := "Monitor seeds for germination progress"
    , taskType := .monitoring
    , growthStage := .germination
    , daysFromStageStart := 1
    , frequencyDays := 1
    , priority := "High"
    , estimatedDuration := 5
    , requiredMaterials := ["Magnifying glass"]
    , instructions := "Check for root emergence and remove ungerminated seeds after 7 days" }
  , { name := "Maintain Germination Environment"
    , description := "Ensure proper temperature and humidity for germination"
    , taskType := .environmental
    , growthStage := .germination
    , daysFromStageStart := 0
    , frequencyDays := 1
    , priority := "Critical"
    , estimatedDuration := 10
    , requiredMaterials := ["Thermometer", "Humidity gauge"]
    , instructions := "Maintain 75-80\xb0F temperature and 80-90% humidity" }
  , { name := "First Nutrient Solution"
    , description := "Introduce diluted nutrient solution for seedlings"
    , taskType := .feeding
    , growthStage := .seedling
    , daysFromStageStart := 3
    , frequencyDays := 7
    , priority := "High"
    , estimatedDuration := 15
    , requiredMaterials := ["Nutrient solution", "EC meter", "pH meter"]
    , instructions := "Use 25% strength nutrient solution, EC 0.8-1.2, pH 5.5-6.5" }
  , { name := "Transplant to Growing System"
    , description := "Move seedlings to main hydroponic system"
    , taskType := .maintenance
    , growthStage := .seedling
    , daysFromStageStart := 14
    , frequencyDays := 0
    , priority := "Critical"
    , estimatedDuration := 30
    , requiredMaterials := ["Net pots", "Growing medium", "Support clips"]
    , instructions := "Carefully transplant when 2-3 true leaves are present" }
  , { name := "Weekly Nutrient Solution Change"
    , description := "Replace nutrient solution for optimal growth"
    , taskType := .feeding
    , growthStage := .vegetative
    , daysFromStageStart := 0
    , frequencyDays := 7
    , priority := "Critical"
    , estimatedDuration := 45
    , requiredMaterials := ["Fresh nutrients", "pH adjuster", "Clean water"]
    , instructions := "Full solution change, EC 1.2-1.6, pH 5.5-6.5" }
  , { name := "Prune Lower Leaves"
    , description := "Remove lower yellowing leaves to focus energy"
    , taskType := .pruning
    , growthStage := .vegetative
    , daysFromStageStart := 14
    , frequencyDays := 14
    , priority := "Medium"
    , estimatedDuration := 20
    , requiredMaterials := ["Clean scissors", "Sanitizer"]
    , instructions := "Remove yellowing lower leaves and any dead growth" }
  , { name := "LST (Low Stress Training)"
    , description := "Bend and tie branches to optimize light exposure"
    , taskType := .training
    , growthStage := .vegetative
    , daysFromStageStart := 21
    , frequencyDays := 7
    , priority := "Medium"
    , estimatedDuration := 25
    , requiredMaterials := ["Soft ties", "Clips"]
    , instructions := "Gently bend branches to create even canopy" }
  , { name := "Switch to Flowering Nutrients"
    , description := "Change to flowering-specific nutrient formula"
    , taskType := .feeding
    , growthStage := .flowering
    , daysFromStageStart := 0
    , frequencyDays := 0
    , priority := "Critical"
    , estimatedDuration := 30
    , requiredMaterials := ["Flowering nutrients", "pH adjuster"]
    , instructions := "Switch to high P-K flowering formula, reduce nitrogen" }
  , { name := "Monitor Flower Development"
    , description := "Check flowering progress and identify issues"
    , taskType := .monitoring
    , growthStage := .flowering
    , daysFromStageStart := 7
    , frequencyDays := 3
    , priority := "High"
    , estimatedDuration := 15
    , requiredMaterials := ["Magnifying glass", "Notebook"]
    , instructions := "Check for pistil development, pollen sacs, or hermaphrodites" }
  , { name := "Defoliation for Light Penetration"
    , description := "Remove fan leaves blocking bud sites"
    , taskType := .pruning
    , growthStage := .flowering
    , daysFromStageStart := 21
    , frequencyDays := 0
    , priority := "Medium"
    , estimatedDuration := 45
    , requiredMaterials := ["Clean scissors", "Sanitizer"]
    , instructions := "Remove large fan leaves blocking light to lower bud sites" }
  , { name := "Check Trichome Development"
    , description := "Monitor trichomes for harvest readiness"
    , taskType := .monitoring
    , growthStage := .harvest
    , daysFromStageStart := 0
    , frequencyDays := 2
    , priority := "Critical"
    , estimatedDuration := 10
    , requiredMaterials := ["60x magnifying glass", "Jeweler\x27s loupe"]
    , instructions := "Look for milky white trichomes with some amber" }
  , { name := "Harvest Plants"
    , description := "Cut and prepare plants for drying"
    , taskType := .harvesting
    , growthStage := .harvest
    , daysFromStageStart := 7
    , frequencyDays := 0
    , priority := "Critical"
    , estimatedDuration := 120
    , requiredMaterials := ["Sharp scissors", "Gloves", "Drying racks"]
    , instructions := "Cut at base, trim fan leaves, hang to dry in controlled environment" }
  ]

/-- `_get_soil_templates`. -/
def soilTemplates : List TaskTemplate :=
  [ { name := "Water Check - Soil"
    , description := "Check soil moisture and water if needed"
    , taskType := .watering
    , growthStage := .vegetative
    , daysFromStageStart := 0
    , frequencyDays := 2
    , priority := "High"
    , estimatedDuration := 10
    , requiredMaterials := ["Watering can", "Moisture meter"]
    , instructions := "Water when top inch of soil is dry" } ]

/-- `_get_aeroponic_templates`. -/
def aeroponicTemplates : List TaskTemplate :=
  [ { name := "Check Spray Nozzles"
    , description := "Ensure all spray nozzles are functioning"
    , taskType := .maintenance
    , growthStage := .vegetative
    , daysFromStageStart := 0
    , frequencyDays := 3
    , priority := "Critical"
    , estimatedDuration := 15
    , requiredMaterials := ["Cleaning tools", "Replacement nozzles"]
    , instructions := "Clean or replace any clogged nozzles" } ]

/-- `self.task_templates.get(method, self.task_templates['hydroponic'])`:
the catalogue keyed by growing method, defaulting to hydroponic. -/
def templatesForMethod (method : String) : List TaskTemplate :=
  if method = "hydroponic" then hydroponicTemplates
  else if method = "soil" then soilTemplates
  else if method = "aeroponic" then aeroponicTemplates
  else hydroponicTemplates

/-- A row of the `gardens` table. -/
structure Garden where
  id : Int
  name : String
  growingMethod : String
  plantType : String
  plantedDate : Int
  currentStage : String
  stageStartDate : Int
  location : Option String
  isActive : Bool
deriving DecidableEq, Repr

/-- A row of the `tasks` table. -/
structure TaskRow where
  id : Int
  gardenId : Int
  title : String
  description : String
  taskType : String
  priority : String
  due : Int
  estimatedDuration : Int
  isCompleted : Bool
  createdDate : Int
deriving DecidableEq, Repr

/-- The task dictionary returned by `_create_task_from_template`. -/
structure GenTask where
  title : String
  description : String
  gardenId : Int
  taskType : String
  priority : String
  due : Int
  estimatedDuration : Int
  isCompleted : Bool
  createdDate : Int
  autoGenerated : Bool
deriving DecidableEq, Repr

/-- The persistent store the schedulers read and write.  `writeOk` models
whether `INSERT` statements succeed (the generator catches the store's
exception and returns `False` from `_save_task_to_database`). -/
structure Store where
  gardens : List Garden
  tasks : List TaskRow
  nextId : Int
  writeOk : Bool
deriving DecidableEq, Repr

/-- `_calculate_days_since_planting`: `(datetime.now() - planted_date).days`;
Python's `timedelta.days` floors, hence `Int.fdiv`. -/
def calculateDaysSincePlanting (now planted : Int) : Int :=
  (now - planted).fdiv dayMinutes

/-- `_determine_growth_stage` of the generator, as a function of the
days-since-planting count. -/
def determineGrowthStage (daysSincePlanting : Int) : GrowthStage :=
  if daysSincePlanting < 7 then .germination
  else if daysSincePlanting < 21 then .seedling
  else if daysSincePlanting < 56 then .vegetative
  else if daysSincePlanting < 112 then .flowering
  else .harvest

/-- `_calculate_days_in_current_stage`: lower threshold of the stage,
`stage_starts.get(stage, 0)`. -/
def stageStart : GrowthStage → Int
  | .germination => 0
  | .seedling => 7
  | .vegetative => 21
  | .flowering => 56
  | .harvest => 112
  | _ => 0

/-- `_calculate_days_in_current_stage`. -/
def calculateDaysInCurrentStage (stage : GrowthStage) (totalDays : Int) : Int :=
  totalDays - stageStart stage

/-- `_get_expected_stage` of `notification_system.py`; its input is the
fractional day count `julianday('now') - julianday(planted_date)`. -/
def getExpectedStage (daysSincePlanting : ℚ) : String :=
  if daysSincePlanting < 7 then "germination"
  else if daysSincePlanting < 21 then "seedling"
  else if daysSincePlanting < 56 then "vegetative"
  else if daysSincePlanting < 112 then "flowering"
  else "harvest"

/-- Does the character list `s` contain `pat` as a contiguous sublist? -/
def charsHavePat (pat : List Char) : List Char → Bool
  | [] => pat.isEmpty
  | c :: tail => List.isPrefixOf pat (c :: tail) || charsHavePat pat tail

/-- SQL `LIKE '%pat%'`: `pat` occurs as a substring of `s`. -/
def likeContains (s pat : String) : Bool :=
  charsHavePat pat.data s.data

/-- `_get_last_similar_task`: latest `created_date` among this garden's tasks
whose title contains the template name (`ORDER BY created_date DESC LIMIT 1`). -/
def getLastSimilarTask (tasks : List TaskRow) (gardenId : Int) (name : String) :
    Option Int :=
  (tasks.filter (fun t => t.gardenId == gardenId && likeContains t.title name)).foldl
    (fun acc t =>
      match acc with
      | none => some t.createdDate
      | some c => if c < t.createdDate then some t.createdDate else some c)
    none

/-- `_task_already_exists`: `COUNT(*) > 0` over rows with
`garden_id = ? AND title = ?`, queried with the bare template name. -/
def taskAlreadyExists (tasks : List TaskRow) (gardenId : Int) (name : String) : Bool :=
  tasks.any (fun t => t.gardenId == gardenId && t.title == name)

/-- `_should_generate_task`. -/
def shouldGenerateTask (now : Int) (tasks : List TaskRow) (template : TaskTemplate)
    (currentStage : GrowthStage) (daysSincePlanting : Int) (gardenId : Int) : Bool :=
  if template.growthStage ≠ currentStage then false
  else if calculateDaysInCurrentStage currentStage daysSincePlanting <
      template.daysFromStageStart then false
  else if 0 < template.frequencyDays then
    match getLastSimilarTask tasks gardenId template.name with
    | some created =>
        decide (template.frequencyDays ≤ (now - created).fdiv dayMinutes)
    | none => true
  else if template.frequencyDays == 0 then
    ! taskAlreadyExists tasks gardenId template.name
  else true

/-- `_create_task_from_template`. -/
def createTaskFromTemplate (now : Int) (template : TaskTemplate) (gardenId : Int)
    (gardenName : String) : GenTask :=
  let materialsPart :=
    if template.requiredMaterials ≠ [] then
      "Required materials: " ++ String.intercalate ", " template.requiredMaterials ++ "\n"
    else ""
  { title := template.name ++ " - " ++ gardenName
  , description := template.description ++ "\n\n" ++ "Instructions: " ++
      template.instructions ++ "\n" ++ materialsPart ++
      "Estimated duration: " ++ toString template.estimatedDuration ++ " minutes"
  , gardenId := gardenId
  , taskType := template.taskType.value
  , priority := template.priority
  , due := now + dayMinutes
  , estimatedDuration := template.estimatedDuration
  , isCompleted := false
  , createdDate := now
  , autoGenerated := true }

/-- Python `str.lower()` (character-wise; growing-method tags are ASCII). -/
def lowerString (s : String) : String :=
  ⟨s.data.map Char.toLower⟩

/-- `_get_garden_info`: `SELECT ... FROM gardens WHERE id = ? AND is_active = 1`. -/
def getGardenInfo (s : Store) (gardenId : Int) : Option Garden :=
  s.gardens.find? (fun g => g.id == gardenId && g.isActive)

/-- `generate_tasks_for_garden`.  The function only reads the store: it
returns the synthesised task dictionaries without persisting them. -/
def generateTasksForGarden (now : Int) (s : Store) (gardenId : Int) : List GenTask :=
  match getGardenInfo s gardenId with
  | none => []
  | some garden =>
      let daysSincePlanting := calculateDaysSincePlanting now garden.plantedDate
      let currentStage := determineGrowthStage daysSincePlanting
      let templates := templatesForMethod (lowerString garden.growingMethod)
      (templates.filter
          (fun t => shouldGenerateTask now s.tasks t currentStage daysSincePlanting gardenId)).map
        (fun t => createTaskFromTemplate now t gardenId garden.name)

/-- `_save_task_to_database`: one `INSERT INTO tasks`; returns whether the
write succeeded (the Python catches the exception and returns `False`). -/
def saveTaskToDatabase (s : Store) (t : GenTask) : Bool × Store :=
  if s.writeOk then
    (true,
      { s with
          tasks := s.tasks ++
            [{ id := s.nextId, gardenId := t.gardenId, title := t.title
             , description := t.description, taskType := t.taskType
             , priority := t.priority, due := t.due
             , estimatedDuration := t.estimatedDuration
             , isCompleted := t.isCompleted, createdDate := t.createdDate }]
          nextId := s.nextId + 1 })
  else (false, s)

/-- The body of the inner loop of `generate_tasks_for_all_gardens`: save one
task and increment `total_generated`, whether or not the save succeeded (the
Python ignores the boolean returned by `_save_task_to_database`). -/
def saveCountStep (acc : Nat × Store) (t : GenTask) : Nat × Store :=
  let r := saveTaskToDatabase acc.2 t
  (acc.1 + 1, r.2)

/-- The body of the outer loop of `generate_tasks_for_all_gardens`: generate
for one garden, then save each generated task. -/
def generateAllStep (now : Int) (acc : Nat × Store) (gardenId : Int) : Nat × Store :=
  (generateTasksForGarden now acc.2 gardenId).foldl saveCountStep acc

/-- `generate_tasks_for_all_gardens`: iterate the active gardens
(`SELECT id FROM gardens WHERE is_active = 1`), generating and saving. -/
def generateTasksForAllGardens (now : Int) (s : Store) : Nat × Store :=
  ((s.gardens.filter (fun g => g.isActive)).map (fun g => g.id)).foldl
    (generateAllStep now) (0, s)

/-- `_is_quiet_hours` of `notification_system.py`, as a function of the
preference hours and the current hour of day. -/
def isQuietHours (quietStart quietEnd currentHour : Int) : Bool :=
  if quietEnd < quietStart then
    decide (quietStart ≤ currentHour) || decide (currentHour ≤ quietEnd)
  else
    decide (quietStart ≤ currentHour) && decide (currentHour ≤ quietEnd)

/-! ### Multi-garden coordinator (`multi_garden_coordinator.py`) -/

/-- Exact rational scores standing in for Python floats.  The denominator of
every value built by the coordinator is positive; values are kept
unnormalised (comparisons cross-multiply, so no gcd is needed), which keeps
every score computation kernel-reducible. -/
structure Q where
  num : Int
  den : Int
deriving DecidableEq, Repr, Inhabited

instance (n : Nat) : OfNat Q n := ⟨⟨n, 1⟩⟩

instance : NatCast Q := ⟨fun n => ⟨n, 1⟩⟩

instance : IntCast Q := ⟨fun n => ⟨n, 1⟩⟩

instance : Add Q := ⟨fun a b => ⟨a.num * b.den + b.num * a.den, a.den * b.den⟩⟩

instance : Sub Q := ⟨fun a b => ⟨a.num * b.den - b.num * a.den, a.den * b.den⟩⟩

instance : Mul Q := ⟨fun a b => ⟨a.num * b.num, a.den * b.den⟩⟩

instance : Div Q := ⟨fun a b => ⟨a.num * b.den, a.den * b.num⟩⟩

instance : LE Q := ⟨fun a b => a.num * b.den ≤ b.num * a.den⟩

instance : LT Q := ⟨fun a b => a.num * b.den < b.num * a.den⟩

instance : DecidableRel (fun a b : Q => a ≤ b) := fun a b =>
  inferInstanceAs (Decidable (a.num * b.den ≤ b.num * a.den))

instance : DecidableRel (fun a b : Q => a < b) := fun a b =>
  inferInstanceAs (Decidable (a.num * b.den < b.num * a.den))

instance : Min Q := ⟨fun a b => if a ≤ b then a else b⟩

instance : Max Q := ⟨fun a b => if a ≤ b then b else a⟩

/-- Floor of a score (denominators are positive). -/
def Q.floor (q : Q) : Int := q.num.fdiv q.den


/-- `{'Critical': 3, 'High': 2, 'Medium': 1, 'Low': 0}.get(priority, 0)`. -/
def priorityOrder (p : String) : Nat :=
  if p == "Critical" then 3
  else if p == "High" then 2
  else if p == "Medium" then 1
  else if p == "Low" then 0
  else 0

/-- `{'Critical': 100, 'High': 75, 'Medium': 50, 'Low': 25}.get(priority, 25)`. -/
def priorityScore100 (p : String) : Q :=
  if p == "Critical" then 100
  else if p == "High" then 75
  else if p == "Medium" then 50
  else if p == "Low" then 25
  else 25

/-- `ResourceType` enum. -/
inductive ResourceType where
  | nutrients
  | water
  | equipment
  | lighting
  | time
  | space
deriving DecidableEq, Repr

/-- The `.value` string of each `ResourceType` member. -/
def ResourceType.value : ResourceType → String
  | .nutrients => "nutrients"
  | .water => "water"
  | .equipment => "equipment"
  | .lighting => "lighting"
  | .time => "time"
  | .space => "space"

/-- `ResourceRequirement` dataclass (`flexibility_minutes` defaults to 60). -/
structure ResourceRequirement where
  resourceType : ResourceType
  quantity : Q
  durationMinutes : Int
  flexibilityMinutes : Int := 60
deriving DecidableEq, Repr

/-- A row of the coordinator's fetch join (task fields plus `garden_name`,
`growing_method`, `location` from the joined garden). -/
structure CTask where
  id : Int
  title : String
  description : String
  gardenId : Int
  taskType : String
  priority : String
  due : Int
  estimatedDuration : Int
  gardenName : String
  growingMethod : String
  location : Option String
deriving DecidableEq, Repr, Inhabited

/-- `ORDER BY t.priority DESC, t.due_date ASC` — SQL sorts the priority
STRINGS, so alphabetically descending; ties keep table order (SQLite leaves
tie order unspecified; the embedding fixes it to table order). -/
def fetchRel (a b : CTask) : Prop :=
  b.priority.data < a.priority.data ∨ (a.priority = b.priority ∧ a.due ≤ b.due)

instance : DecidableRel fetchRel := fun a b => by unfold fetchRel; infer_instance

/-- `_get_pending_tasks_for_date`: pending tasks of active gardens whose
due date falls on the calendar day of `targetDate`. -/
def getPendingTasksForDate (s : Store) (targetDate : Int) : List CTask :=
  let startD := dayFloor targetDate
  let endD := startD + dayMinutes
  (s.tasks.filterMap (fun t =>
    match s.gardens.find? (fun g => g.id == t.gardenId) with
    | none => none
    | some g =>
        if !t.isCompleted && g.isActive && decide (startD ≤ t.due) &&
            decide (t.due < endD) then
          some { id := t.id, title := t.title, description := t.description
               , gardenId := t.gardenId, taskType := t.taskType
               , priority := t.priority, due := t.due
               , estimatedDuration := t.estimatedDuration
               , gardenName := g.name, growingMethod := g.growingMethod
               , location := g.location }
        else none)).insertionSort fetchRel

/-- The fetch, with the store threaded through explicitly: the query is a
SELECT, so the store comes back unchanged. -/
def getPendingTasksForDateS (s : Store) (targetDate : Int) : List CTask × Store :=
  (getPendingTasksForDate s targetDate, s)

/-- The per-task-type requirement table of `_analyze_resource_requirements`. -/
def reqsForTaskType (taskType : String) (duration : Int) : List ResourceRequirement :=
  if taskType == "feeding" then
    [ { resourceType := .nutrients, quantity := 2, durationMinutes := duration }
    , { resourceType := .water, quantity := 10, durationMinutes := duration }
    , { resourceType := .equipment, quantity := 1, durationMinutes := duration }
    , { resourceType := .time, quantity := (duration : Q), durationMinutes := duration
      , flexibilityMinutes := 30 } ]
  else if taskType == "watering" then
    [ { resourceType := .water, quantity := 5, durationMinutes := duration }
    , { resourceType := .time, quantity := (duration : Q), durationMinutes := duration
      , flexibilityMinutes := 60 } ]
  else if taskType == "pruning" then
    [ { resourceType := .equipment, quantity := 1, durationMinutes := duration }
    , { resourceType := .time, quantity := (duration : Q), durationMinutes := duration
      , flexibilityMinutes := 120 } ]
  else if taskType == "monitoring" then
    [ { resourceType := .equipment, quantity := 1, durationMinutes := duration }
    , { resourceType := .time, quantity := (duration : Q), durationMinutes := duration
      , flexibilityMinutes := 180 } ]
  else
    [ { resourceType := .time, quantity := (duration : Q), durationMinutes := duration
      , flexibilityMinutes := 60 } ]

/-- `_analyze_resource_requirements`: the `task_id → requirements` dict
(task ids are primary keys, hence unique). -/
def analyzeResourceRequirements (tasks : List CTask) :
    List (Int × List ResourceRequirement) :=
  tasks.map (fun t => (t.id, reqsForTaskType t.taskType t.estimatedDuration))

/-- `task_resources.get(task_id, [])`. -/
def getTaskResources (resMap : List (Int × List ResourceRequirement))
    (taskId : Int) : List ResourceRequirement :=
  match resMap.find? (fun p => p.1 == taskId) with
  | some p => p.2
  | none => []

/-- One entry of the `resource_usage[resource_type]` lists. -/
structure Usage where
  taskId : Int
  taskTitle : String
  startTime : Int
  endTime : Int
  quantity : Q
  flexibility : Int
deriving DecidableEq, Repr

/-- The conflict dictionaries of `_detect_conflicts`, split by their `type`
tag. -/
inductive Conflict where
  | resource (resource : String) (taskIds : List Int) (taskTitles : List String)
      (overlapMinutes : Q) (flexibility : Int)
  | space (taskIds : List Int) (taskTitles : List String)
      (locations : List (Option String)) (travelTimeNeeded : Int)
deriving DecidableEq, Repr

/-- Keep the first occurrence of each element (models iteration order of a
`defaultdict`, which is key-insertion order; Python `set` iteration order is
unspecified and the embedding also fixes it to first-occurrence order). -/
def dedupFirst {α : Type} [BEq α] (l : List α) : List α :=
  l.foldl (fun acc r => if acc.contains r then acc else acc ++ [r]) []

/-- All `(resource_type, usage)` pairs appended by `_detect_conflicts`, in
task order then requirement order. -/
def usageEntries (tasks : List CTask) (resMap : List (Int × List ResourceRequirement)) :
    List (ResourceType × Usage) :=
  tasks.flatMap (fun t =>
    (getTaskResources resMap t.id).map (fun req =>
      (req.resourceType,
        { taskId := t.id, taskTitle := t.title, startTime := t.due
        , endTime := t.due + req.durationMinutes, quantity := req.quantity
        , flexibility := req.flexibilityMinutes })))

/-- The pairwise scan over one resource type's usage list, already sorted by
start time: a conflict when the earlier usage's end exceeds the later one's
start. -/
def adjacentResourceConflicts (rt : ResourceType) (usages : List Usage) :
    List Conflict :=
  (usages.zip usages.tail).filterMap (fun p =>
    if p.2.startTime < p.1.endTime then
      some (.resource rt.value [p.1.taskId, p.2.taskId]
        [p.1.taskTitle, p.2.taskTitle]
        (((p.1.endTime - p.2.startTime : Int) : Q))
        (min p.1.flexibility p.2.flexibility))
    else none)

/-- Stable ascending sort by usage start time (`usages.sort(key=start_time)`). -/
def sortUsagesByStart (usages : List Usage) : List Usage :=
  usages.insertionSort (fun a b => a.startTime ≤ b.startTime)

/-- The resource-conflict half of `_detect_conflicts`. -/
def detectResourceConflicts (tasks : List CTask)
    (resMap : List (Int × List ResourceRequirement)) : List Conflict :=
  let entries := usageEntries tasks resMap
  (dedupFirst (entries.map (fun e => e.1))).flatMap (fun rt =>
    adjacentResourceConflicts rt
      (sortUsagesByStart ((entries.filter (fun e => e.1 == rt)).map (fun e => e.2))))

/-- Task types that require physical presence. -/
def physicalTaskTypes : List String :=
  ["pruning", "training", "harvesting", "maintenance"]

/-- `_check_location_conflicts`. -/
def checkLocationConflicts (tasks : List CTask) : List Conflict :=
  let physical := tasks.filter (fun t => physicalTaskTypes.contains t.taskType)
  let sorted := physical.insertionSort (fun a b => a.due ≤ b.due)
  (sorted.zip sorted.tail).filterMap (fun p =>
    if p.1.location ≠ p.2.location ∧ p.1.location ≠ none ∧ p.2.location ≠ none then
      if p.2.due - (p.1.due + p.1.estimatedDuration) < 15 then
        some (.space [p.1.id, p.2.id] [p.1.title, p.2.title]
          [p.1.location, p.2.location] 15)
      else none
    else none)

/-- `_detect_conflicts`. -/
def detectConflicts (tasks : List CTask)
    (resMap : List (Int × List ResourceRequirement)) : List Conflict :=
  detectResourceConflicts tasks resMap ++ checkLocationConflicts tasks

/-- `_resolve_resource_conflict`: shift the lower-priority of the two
involved tasks forward by the conflict's recorded flexibility (task ids are
unique, so updating by id models Python's in-place dict mutation). -/
def resolveResourceConflict (tasks : List CTask) (taskIds : List Int)
    (flexibility : Int) : List CTask :=
  match tasks.filter (fun t => taskIds.contains t.id) with
  | [t1, t2] =>
      let toResched := if priorityOrder t2.priority ≤ priorityOrder t1.priority
        then t2 else t1
      tasks.map (fun t =>
        if t.id == toResched.id then { t with due := t.due + flexibility } else t)
  | _ => tasks

/-- `_resolve_space_conflict`: shift the second involved task (in list
order) forward by the travel time. -/
def resolveSpaceConflict (tasks : List CTask) (taskIds : List Int)
    (travelTime : Int) : List CTask :=
  match tasks.filter (fun t => taskIds.contains t.id) with
  | [_, t2] =>
      tasks.map (fun t =>
        if t.id == t2.id then { t with due := t.due + travelTime } else t)
  | _ => tasks

/-- One iteration of `_resolve_conflicts`. -/
def resolveConflictStep (tasks : List CTask) (c : Conflict) : List CTask :=
  match c with
  | .resource _ ids _ _ flex => resolveResourceConflict tasks ids flex
  | .space ids _ _ travel => resolveSpaceConflict tasks ids travel

/-- `_resolve_conflicts`: apply every detected conflict in order to the
in-memory task list. -/
def resolveConflicts (tasks : List CTask) (conflicts : List Conflict) : List CTask :=
  conflicts.foldl resolveConflictStep tasks

/-- The sort key of the batching loop: `(priority_order, due_date)`. -/
def batchKey (t : CTask) : Nat × Int :=
  (priorityOrder t.priority, t.due)

/-- Lexicographic order on `(priority_order, due_date)` pairs. -/
def lexLe (a b : Nat × Int) : Prop :=
  a.1 < b.1 ∨ (a.1 = b.1 ∧ a.2 ≤ b.2)

/-- `remaining_tasks.sort(key=(priority, due), reverse=True)`: stable sort,
DESCENDING in the whole key — so equal-priority tasks are ordered by due
date descending, latest first. -/
def batchRel (a b : CTask) : Prop :=
  lexLe (batchKey b) (batchKey a)

instance : DecidableRel batchRel := fun a b => by
  unfold batchRel lexLe; infer_instance

/-- The batching loop's sort. -/
def sortBatch (l : List CTask) : List CTask :=
  l.insertionSort batchRel

/-- `_are_tasks_batchable`. -/
def areTasksBatchable (resMap : List (Int × List ResourceRequirement))
    (t1 t2 : CTask) : Bool :=
  if t1.location ≠ t2.location ∧ t1.location ≠ none then false
  else
    let r1 := (getTaskResources resMap t1.id).map (fun r => r.resourceType)
    let r2 := (getTaskResources resMap t2.id).map (fun r => r.resourceType)
    if !r1.any (fun x => r2.contains x) then false
    else if 120 < (t2.due - t1.due).natAbs then false
    else true

/-- `len(set(resources1) & set(resources2))`. -/
def sharedResourceCount (resMap : List (Int × List ResourceRequirement))
    (t1 t2 : CTask) : Nat :=
  let r1 := dedupFirst ((getTaskResources resMap t1.id).map (fun r => r.resourceType))
  let r2 := (getTaskResources resMap t2.id).map (fun r => r.resourceType)
  (r1.filter (fun x => r2.contains x)).length

/-- The order-insensitive task-type compatibility bonuses. -/
def typeCompatBonus (tt1 tt2 : String) : Q :=
  if (tt1 == "feeding" ∧ tt2 == "monitoring") ∨
     (tt1 == "monitoring" ∧ tt2 == "feeding") then 3
  else if (tt1 == "pruning" ∧ tt2 == "training") ∨
     (tt1 == "training" ∧ tt2 == "pruning") then 4
  else if (tt1 == "watering" ∧ tt2 == "monitoring") ∨
     (tt1 == "monitoring" ∧ tt2 == "watering") then 2
  else 0

/-- `_calculate_compatibility_score`. -/
def calculateCompatibilityScore (resMap : List (Int × List ResourceRequirement))
    (t1 t2 : CTask) : Q :=
  (if t1.gardenId == t2.gardenId then (10 : Q) else 0)
  + (if t1.location == t2.location then (5 : Q) else 0)
  + (sharedResourceCount resMap t1 t2 : Q) * 2
  + (max 0 ((60 : Q) - ((t2.due - t1.due).natAbs : Q))) * (1/10)
  + typeCompatBonus t1.taskType t2.taskType

/-- `TaskBatch` dataclass. -/
structure TaskBatch where
  tasks : List CTask
  totalDuration : Int
  sharedResources : List ResourceType
  optimalStartTime : Int
  efficiencyScore : Q
deriving DecidableEq, Repr, Inhabited

/-- `_calculate_batch_efficiency`. -/
def calculateBatchEfficiency (tasks : List CTask)
    (sharedResources : List ResourceType) (totalDuration : Int) : Q :=
  let base : Q := 50 + (tasks.length : Q) * 10 + (sharedResources.length : Q) * 5
  let gardenBonus : Q :=
    if (dedupFirst (tasks.map (fun t => t.gardenId))).length == 1 then 15 else 0
  let penalty : Q :=
    if 120 < totalDuration then ((totalDuration - 120 : Int) : Q) * (1/10) else 0
  max 0 (min 100 (base + gardenBonus - penalty))

/-- `_create_batch_object`. -/
def createBatchObject (resMap : List (Int × List ResourceRequirement))
    (tasks : List CTask) : TaskBatch :=
  let totalDuration := (tasks.map (fun t => t.estimatedDuration)).sum
  let allTypes := dedupFirst (tasks.flatMap (fun t =>
    (getTaskResources resMap t.id).map (fun r => r.resourceType)))
  let earliest := match tasks.map (fun t => t.due) with
    | [] => 0
    | d :: ds => ds.foldl min d
  { tasks := tasks, totalDuration := totalDuration, sharedResources := allTypes
  , optimalStartTime := earliest
  , efficiencyScore := calculateBatchEfficiency tasks allTypes totalDuration }

/-- Erase each listed element from `acc` (the `remaining_tasks.remove(task)`
calls after a batch is filled). -/
def eraseAll (acc : List CTask) (l : List CTask) : List CTask :=
  l.foldl (fun a x => a.erase x) acc

/-- `_create_task_batches`: greedy loop — re-sort the pool, take the head as
seed, collect batchable tasks, keep the four best-scoring ones (five per
batch with the seed), remove them and repeat.  Python sorts the scored
`(score, task)` pairs with `reverse=True`; on a score tie it would compare
the task dicts and raise `TypeError` (caught by the caller, which then
returns an error dict); the embedding totalises this sort by comparing
scores only, keeping pool order on ties. -/
def createTaskBatchesFuel (resMap : List (Int × List ResourceRequirement)) :
    Nat → List CTask → List TaskBatch
  | 0, _ => []
  | fuel + 1, tasks =>
    match sortBatch tasks with
    | [] => []
    | seed :: rest =>
        let compatible := rest.filter (fun t => areTasksBatchable resMap seed t)
        let scored := compatible.map (fun t => (calculateCompatibilityScore resMap seed t, t))
        let sortedScored := scored.insertionSort (fun a b => b.1 ≤ a.1)
        let chosen := (sortedScored.take 4).map (fun p => p.2)
        let remaining := eraseAll rest chosen
        createBatchObject resMap (seed :: chosen) ::
          createTaskBatchesFuel resMap fuel remaining
  
/-- `_create_task_batches` proper: each iteration removes at least the seed,
so a fuel of `tasks.length` always suffices. -/
def createTaskBatches (resMap : List (Int × List ResourceRequirement))
    (tasks : List CTask) : List TaskBatch :=
  createTaskBatchesFuel resMap tasks.length tasks

/-- The per-batch dictionary built by `_optimize_execution_order`. -/
structure BatchInfo where
  id : Nat
  tasks : List CTask
  totalDurationMinutes : Int
  sharedResources : List String
  optimalStartTime : Int
  estimatedEndTime : Int
  efficiencyScore : Q
  taskCount : Nat
  gardensInvolved : List Int
deriving DecidableEq, Repr, Inhabited

/-- Python `enumerate`. -/
def enumerateFrom {α : Type} (i : Nat) : List α → List (Nat × α)
  | [] => []
  | x :: xs => (i, x) :: enumerateFrom (i + 1) xs

/-- Python `enumerate` starting at 0. -/
def enumerate {α : Type} (l : List α) : List (Nat × α) :=
  enumerateFrom 0 l

/-- Mean per-task priority weight of a batch (batches are nonempty, so the
division is by a positive count). -/
def batchUrgency (b : TaskBatch) : Q :=
  ((b.tasks.map (fun t => priorityScore100 t.priority)).foldl (fun a c => a + c) 0) /
    (b.tasks.length : Q)

/-- `combined_score = efficiency * 0.6 + urgency * 0.4`. -/
def combinedScore (b : TaskBatch) : Q :=
  b.efficiencyScore * (6/10) + batchUrgency b * (4/10)

/-- The final loop of `_optimize_execution_order`: walk the sorted batches
assigning start times, 15-minute buffer between batches. -/
def scheduleBatches : List (Q × Nat × TaskBatch) → Int → List BatchInfo
  | [], _ => []
  | (_, i, b) :: rest, cur =>
      { id := i, tasks := b.tasks, totalDurationMinutes := b.totalDuration
      , sharedResources := b.sharedResources.map (fun r => r.value)
      , optimalStartTime := cur, estimatedEndTime := cur + b.totalDuration
      , efficiencyScore := b.efficiencyScore, taskCount := b.tasks.length
      , gardensInvolved := dedupFirst (b.tasks.map (fun t => t.gardenId)) } ::
      scheduleBatches rest (cur + b.totalDuration + 15)

/-- `_optimize_execution_order`: score each batch, sort the
`(combined_score, index, batch)` tuples descending (score ties break toward
the larger index, as Python tuple comparison does), then assign start times
beginning at 08:00 of the day of `datetime.now()` — the invocation's
wall-clock day, not the target date. -/
def optimizeExecutionOrder (batches : List TaskBatch) (now : Int) : List BatchInfo :=
  let priorities := (enumerate batches).map (fun p => (combinedScore p.2, p.1, p.2))
  let sorted := priorities.insertionSort
    (fun a b => b.1 < a.1 ∨ (a.1 ≤ b.1 ∧ b.1 ≤ a.1 ∧ b.2.1 ≤ a.2.1))
  scheduleBatches sorted (dayFloor now + 480)

/-- The sharing-opportunity dictionaries. -/
structure Opportunity where
  batch1 : Nat
  batch2 : Nat
  sharedResources : List String
  potentialTimeSavings : Int
  setupReduction : Bool
deriving DecidableEq, Repr

/-- `_identify_sharing_opportunities`. -/
def identifySharingOpportunities (batches : List BatchInfo) : List Opportunity :=
  (enumerate batches).flatMap (fun p1 =>
    ((enumerate batches).drop (p1.1 + 1)).filterMap (fun p2 =>
      let shared := (dedupFirst p1.2.sharedResources).filter
        (fun r => p2.2.sharedResources.contains r)
      if shared ≠ [] then
        let timeGap := p2.2.optimalStartTime - p1.2.estimatedEndTime
        if 0 < timeGap ∧ timeGap < 60 then
          some { batch1 := p1.1, batch2 := p2.1, sharedResources := shared
               , potentialTimeSavings := min (5 * (shared.length : Int)) 30
               , setupReduction := true }
        else none
      else none))

/-- `_calculate_time_savings`. -/
def calculateTimeSavings (batches : List BatchInfo) : Int :=
  let totalTasks := (batches.map (fun b => b.taskCount)).sum
  max 0 ((totalTasks : Int) * 5 - (batches.length : Int) * 10)

/-- Python `round(x, 1)` (decimal round-half-to-even) on rationals. -/
def roundHalfEvenQ (q : Q) : Int :=
  let f := q.floor
  if q - (f : Q) < 1/2 then f
  else if (1 : Q)/2 < q - (f : Q) then f + 1
  else if f % 2 == 0 then f else f + 1

/-- `round(average_efficiency, 1)`. -/
def roundTo1 (q : Q) : Q :=
  ((roundHalfEvenQ (q * 10) : Int) : Q) / 10

/-- `_calculate_resource_efficiency`. -/
def calculateResourceEfficiency (batches : List BatchInfo) : Q :=
  if batches.isEmpty then 0
  else roundTo1
    (((batches.map (fun b => b.efficiencyScore)).foldl (fun a c => a + c) 0) /
      (batches.length : Q))

/-- The coordination result dictionary. -/
structure CoordinationResult where
  date : Int
  totalTasks : Nat
  batches : List BatchInfo
  conflictsDetected : Nat
  conflictsResolved : List Conflict
  sharingOpportunities : List Opportunity
  estimatedTimeSaved : Int
  resourceEfficiency : Q
deriving DecidableEq, Repr

/-- `coordinate_daily_tasks` returns a reduced dictionary when no tasks are
pending; `noTasks` models that shape. -/
inductive CoordOutcome where
  | noTasks
  | result (r : CoordinationResult)
deriving DecidableEq, Repr

/-- The batches of an outcome (empty for the no-task shape). -/
def CoordOutcome.batchList : CoordOutcome → List BatchInfo
  | .noTasks => []
  | .result r => r.batches

/-- `coordinate_daily_tasks`, with the store threaded explicitly and the
invocation wall clock `now` as a parameter (the source reads
`datetime.now()` inside `_optimize_execution_order`).  Every store access on
this path is a SELECT. -/
def coordinateDailyTasks (s : Store) (targetDate now : Int) : CoordOutcome × Store :=
  let fetched := getPendingTasksForDateS s targetDate
  if fetched.1.isEmpty then (.noTasks, fetched.2)
  else
    let pending := fetched.1
    let taskResources := analyzeResourceRequirements pending
    let conflicts := detectConflicts pending taskResources
    let resolvedTasks := resolveConflicts pending conflicts
    let taskBatches := createTaskBatches taskResources resolvedTasks
    let optimizedBatches := optimizeExecutionOrder taskBatches now
    (.result
      { date := targetDate
      , totalTasks := pending.length
      , batches := optimizedBatches
      , conflictsDetected := conflicts.length
      , conflictsResolved := conflicts
      , sharingOpportunities := identifySharingOpportunities optimizedBatches
      , estimatedTimeSaved := calculateTimeSavings optimizedBatches
      , resourceEfficiency := calculateResourceEfficiency optimizedBatches },
      fetched.2)

end GrowMaster

namespace GrowMaster

/-! ### Concrete scenarios used by the claim checks -/

/-- The generation instant of the concrete scenarios: midnight of day 100. -/
def genNow : Int := 100 * 1440

/-- A hydroponic garden planted 56 days before `genNow` (first day of the
flowering window). -/
def flowerGarden : Garden :=
  { id := 1, name := "G", growingMethod := "hydroponic", plantType := "tomato"
  , plantedDate := 44 * 1440, currentStage := "flowering"
  , stageStartDate := 44 * 1440, location := none, isActive := true }

/-- A store holding only `flowerGarden`, with no tasks yet. -/
def flowerStore : Store :=
  { gardens := [flowerGarden], tasks := [], nextId := 1, writeOk := true }

/-- A hydroponic garden planted at `genNow` (germination, day 0). -/
def germGarden : Garden :=
  { id := 2, name := "H", growingMethod := "hydroponic", plantType := "basil"
  , plantedDate := 100 * 1440, currentStage := "germination"
  , stageStartDate := 100 * 1440, location := none, isActive := true }

/-- A store holding only `germGarden`, with no tasks yet. -/
def germStore : Store :=
  { gardens := [germGarden], tasks := [], nextId := 1, writeOk := true }

/-- `germStore` with a store whose writes fail. -/
def germStoreNoWrite : Store := { germStore with writeOk := false }

/-- A 30-minute feeding task due at minute 540 (09:00 of day 0), priority
High, garden 1. -/
def feedHigh : CTask :=
  { id := 1, title := "Feed A", description := "", gardenId := 1
  , taskType := "feeding", priority := "High", due := 540
  , estimatedDuration := 30, gardenName := "G1"
  , growingMethod := "hydroponic", location := none }

/-- The same feeding task for garden 2 at the same instant, priority Medium. -/
def feedMed : CTask :=
  { feedHigh with
      id := 2, title := "Feed B", gardenId := 2, priority := "Medium",
      gardenName := "G2" }

/-- The requirement map of the two-feeding-task scenario. -/
def feedResMap : List (Int × List ResourceRequirement) :=
  analyzeResourceRequirements [feedHigh, feedMed]

/-- Feeding task due 09:00, priority High (C4 scenario, id 11). -/
def seedTaskEarly : CTask := { feedHigh with id := 11, title := "T1" }

/-- Feeding task due 10:00, same priority High (C4 scenario, id 12). -/
def seedTaskLate : CTask :=
  { feedHigh with id := 12, title := "T2", due := 600, gardenId := 2 }

/-- The requirement map of the C4 scenario. -/
def seedResMap : List (Int × List ResourceRequirement) :=
  analyzeResourceRequirements [seedTaskEarly, seedTaskLate]

/-- An active garden for the coordinator stores. -/
def coordGarden1 : Garden :=
  { id := 1, name := "G", growingMethod := "hydroponic", plantType := "x"
  , plantedDate := 0, currentStage := "vegetative", stageStartDate := 0
  , location := none, isActive := true }

/-- A second active garden. -/
def coordGarden2 : Garden := { coordGarden1 with id := 2, name := "H" }

/-- A pending watering task due 09:00 of day 100. -/
def waterRow : TaskRow :=
  { id := 1, gardenId := 1, title := "Water", description := ""
  , taskType := "watering", priority := "High", due := 100 * 1440 + 540
  , estimatedDuration := 30, isCompleted := false, createdDate := 0 }

/-- Store for the determinism scenario: one garden, one pending task. -/
def coordStore9 : Store :=
  { gardens := [coordGarden1], tasks := [waterRow], nextId := 2, writeOk := true }

/-- A pending feeding task due 23:30 of day 100, priority High, garden 1. -/
def lateFeedRowA : TaskRow :=
  { id := 1, gardenId := 1, title := "Feed A", description := ""
  , taskType := "feeding", priority := "High", due := 100 * 1440 + 1410
  , estimatedDuration := 30, isCompleted := false, createdDate := 0 }

/-- The same task for garden 2 at the same instant, priority Medium. -/
def lateFeedRowB : TaskRow :=
  { lateFeedRowA with id := 2, gardenId := 2, priority := "Medium" }

/-- Store for the window scenario: two gardens, two simultaneous feeding
tasks late in the evening of day 100. -/
def coordStore6 : Store :=
  { gardens := [coordGarden1, coordGarden2], tasks := [lateFeedRowA, lateFeedRowB]
  , nextId := 3, writeOk := true }

end GrowMaster

namespace GrowMaster

/-! ### Claim checks -/

/-- C1: the two-run generation is NOT idempotent on the code.  At `genNow`,
a hydroponic garden 56 days after planting is eligible for the one-shot
(frequency 0) template "Switch to Flowering Nutrients"; after the first
run's task is persisted (via `generate_tasks_for_all_gardens`), an immediate
second run at the same instant generates the very same task again, because
`_task_already_exists` compares stored titles against the bare template name
while stored titles carry the garden-name suffix.  Frequency-N templates do
deduplicate: the germination garden's second run is empty. -/
theorem generator_second_run_regenerates_one_shot_c1 :
    (generateTasksForGarden genNow flowerStore 1).map (fun t => t.title) =
      ["Switch to Flowering Nutrients - G"]
    ∧ (generateTasksForGarden genNow
        (generateTasksForAllGardens genNow flowerStore).2 1).map (fun t => t.title) =
      ["Switch to Flowering Nutrients - G"]
    ∧ (generateTasksForAllGardens genNow flowerStore).2.tasks.map (fun t => t.title) =
      ["Switch to Flowering Nutrients - G"]
    ∧ generateTasksForGarden genNow (generateTasksForAllGardens genNow germStore).2 2 = [] := by
  refine ⟨by decide, by decide, by decide, by decide⟩

/-- C2 counterexample: with quiet hours start 22 and end 7, the code
classifies the whole of hour 7 as quiet (`current_hour <= end` is
inclusive), while the claim says every instant at hour 7 is outside; hour 8
is the first non-quiet hour. -/
theorem quiet_hours_hour7_c2_counterexample :
    isQuietHours 22 7 7 = true ∧ isQuietHours 22 7 8 = false := by
  exact ⟨by decide, by decide⟩

/-- C2 (amended): the quiet-hours predicate is a CLOSED interval on
hour-of-day, inclusive at both ends, wrapping midnight when start > end:
quiet iff `start ≤ h ∨ h ≤ end` in the wrapping case and
`start ≤ h ∧ h ≤ end` otherwise. -/
theorem quiet_hours_closed_interval_c2 :
    ∀ s e h : Int,
      (e < s → (isQuietHours s e h = true ↔ (s ≤ h ∨ h ≤ e)))
      ∧ (s ≤ e → (isQuietHours s e h = true ↔ (s ≤ h ∧ h ≤ e))) := by
  intro s e h
  constructor
  · intro hc
    rw [isQuietHours, if_pos hc]
    simp
  · intro hc
    rw [isQuietHours, if_neg (by omega)]
    simp

/-- C2 witness: the amended statement applied at start 22, end 7, hour 7. -/
theorem quiet_hours_closed_interval_c2_witness :
    isQuietHours 22 7 7 = true ↔ ((22 : Int) ≤ 7 ∨ (7 : Int) ≤ 7) :=
  (quiet_hours_closed_interval_c2 22 7 7).1 (by decide)

/-- C7: `coordinate_daily_tasks` never mutates the store — every store
access on its call path is a SELECT, and all conflict-resolution
rescheduling happens on the in-memory row copies, so the threaded store
comes back unchanged for every store state, target date and wall clock. -/
theorem coordinate_store_unchanged_c7 :
    ∀ (s : Store) (d now : Int), (coordinateDailyTasks s d now).2 = s := by
  intro s d now
  rw [coordinateDailyTasks]
  split <;> rfl

/-- C8: the Notifier's `_get_expected_stage` and the Generator's
`_determine_growth_stage` agree for every integer days-since-planting count
(the Notifier returns the stage's string value), and both use the
thresholds [0,7) germination, [7,21) seedling, [21,56) vegetative,
[56,112) flowering, ≥112 harvest. -/
theorem stage_derivations_agree_c8 :
    ∀ d : Int,
      getExpectedStage (d : ℚ) = (determineGrowthStage d).value
      ∧ (0 ≤ d → d < 7 → determineGrowthStage d = .germination)
      ∧ (7 ≤ d → d < 21 → determineGrowthStage d = .seedling)
      ∧ (21 ≤ d → d < 56 → determineGrowthStage d = .vegetative)
      ∧ (56 ≤ d → d < 112 → determineGrowthStage d = .flowering)
      ∧ (112 ≤ d → determineGrowthStage d = .harvest) := by
  intro d
  have h7 : ((d : ℚ) < 7) ↔ (d < 7) := by norm_cast
  have h21 : ((d : ℚ) < 21) ↔ (d < 21) := by norm_cast
  have h56 : ((d : ℚ) < 56) ↔ (d < 56) := by norm_cast
  have h112 : ((d : ℚ) < 112) ↔ (d < 112) := by norm_cast
  refine ⟨?_, ?_, ?_, ?_, ?_, ?_⟩
  · simp only [getExpectedStage, determineGrowthStage, h7, h21, h56, h112]
    split_ifs <;> rfl
  all_goals
    intros
    unfold determineGrowthStage
    split_ifs <;> first | rfl | omega

/-- C8 witness: both derivations at day 3 give germination. -/
theorem stage_derivations_agree_c8_witness :
    getExpectedStage ((3 : Int) : ℚ) = (determineGrowthStage 3).value
    ∧ determineGrowthStage 3 = .germination :=
  ⟨(stage_derivations_agree_c8 3).1,
   (stage_derivations_agree_c8 3).2.1 (by decide) (by decide)⟩

/-- C10: both stage derivations are total with range exactly the five
stages germination, seedling, vegetative, flowering, harvest — neither ever
yields the `seed` or `curing` members of the `GrowthStage` enumeration,
for any (also negative or fractional) days-since-planting value, and each
of the five stages is attained. -/
theorem stage_range_exactly_five_c10 :
    (∀ d : Int, determineGrowthStage d ≠ .seed ∧ determineGrowthStage d ≠ .curing)
    ∧ (∀ d : Int,
        determineGrowthStage d = .germination ∨ determineGrowthStage d = .seedling
        ∨ determineGrowthStage d = .vegetative ∨ determineGrowthStage d = .flowering
        ∨ determineGrowthStage d = .harvest)
    ∧ (∀ q : ℚ,
        getExpectedStage q = "germination" ∨ getExpectedStage q = "seedling"
        ∨ getExpectedStage q = "vegetative" ∨ getExpectedStage q = "flowering"
        ∨ getExpectedStage q = "harvest")
    ∧ determineGrowthStage 0 = .germination
    ∧ determineGrowthStage 7 = .seedling
    ∧ determineGrowthStage 21 = .vegetative
    ∧ determineGrowthStage 56 = .flowering
    ∧ determineGrowthStage 112 = .harvest
    ∧ getExpectedStage 0 = "germination"
    ∧ getExpectedStage 7 = "seedling"
    ∧ getExpectedStage 21 = "vegetative"
    ∧ getExpectedStage 56 = "flowering"
    ∧ getExpectedStage 112 = "harvest" := by
  refine ⟨fun d => ?_, fun d => ?_, fun q => ?_, ?_, ?_, ?_, ?_, ?_, ?_, ?_, ?_, ?_, ?_⟩
  · unfold determineGrowthStage; split_ifs <;> exact ⟨by simp, by simp⟩
  · unfold determineGrowthStage; split_ifs <;> simp
  · unfold getExpectedStage; split_ifs <;> simp
  all_goals decide

/-- C9 counterexample: with the same store snapshot and the same target
date (day 100), two invocations on different wall-clock days return
different results — the batch start times are anchored at 08:00 of
`datetime.now()`'s day, not of the target date. -/
theorem coordinate_wall_clock_c9_counterexample :
    coordinateDailyTasks coordStore9 (100 * 1440) (100 * 1440) ≠
      coordinateDailyTasks coordStore9 (100 * 1440) (101 * 1440) := by
  decide

/-- C9 (amended): `coordinate_daily_tasks` is a deterministic function of
the store snapshot, the target date and the calendar day of the invocation
wall clock: invocations on the same wall-clock day agree exactly. -/
theorem coordinate_deterministic_per_day_c9 :
    ∀ (s : Store) (d n1 n2 : Int), dayFloor n1 = dayFloor n2 →
      coordinateDailyTasks s d n1 = coordinateDailyTasks s d n2 := by
  intro s d n1 n2 h
  have hopt : ∀ b, optimizeExecutionOrder b n1 = optimizeExecutionOrder b n2 := by
    intro b
    unfold optimizeExecutionOrder
    rw [h]
  simp only [coordinateDailyTasks, hopt]

/-- C9 witness: two same-day invocations at 00:00 and 01:00 of day 100
agree on the concrete store. -/
theorem coordinate_deterministic_per_day_c9_witness :
    coordinateDailyTasks coordStore9 (100 * 1440) (100 * 1440) =
      coordinateDailyTasks coordStore9 (100 * 1440) (100 * 1440 + 60) :=
  coordinate_deterministic_per_day_c9 coordStore9 (100 * 1440) (100 * 1440)
    (100 * 1440 + 60) (by decide)

end GrowMaster

namespace GrowMaster

theorem saveTask_writeOk_true (s : Store) (t : GenTask) (h : s.writeOk = true) :
    (saveTaskToDatabase s t).2.tasks.length = s.tasks.length + 1
    ∧ (saveTaskToDatabase s t).2.writeOk = true := by
  simp [saveTaskToDatabase, h]

theorem saveTask_writeOk_false (s : Store) (t : GenTask) (h : s.writeOk = false) :
    (saveTaskToDatabase s t).2 = s := by
  simp [saveTaskToDatabase, h]

theorem foldl_saveCountStep_true (ts : List GenTask) :
    ∀ acc : Nat × Store, acc.2.writeOk = true →
      (ts.foldl saveCountStep acc).2.writeOk = true
      ∧ (ts.foldl saveCountStep acc).2.tasks.length = acc.2.tasks.length + ts.length
      ∧ (ts.foldl saveCountStep acc).1 = acc.1 + ts.length := by
  induction ts with
  | nil => intro acc h; simp [h]
  | cons t ts ih =>
      intro acc h
      have hs := saveTask_writeOk_true acc.2 t h
      have hstep : saveCountStep acc t = (acc.1 + 1, (saveTaskToDatabase acc.2 t).2) := rfl
      have hrec := ih (saveCountStep acc t) (by rw [hstep]; exact hs.2)
      rw [List.foldl_cons]
      refine ⟨hrec.1, ?_, ?_⟩
      · rw [hrec.2.1, hstep]
        simp only [List.length_cons]
        omega
      · rw [hrec.2.2, hstep]
        simp only [List.length_cons]
        omega

theorem foldl_saveCountStep_false (ts : List GenTask) :
    ∀ acc : Nat × Store, acc.2.writeOk = false →
      (ts.foldl saveCountStep acc).2 = acc.2 := by
  induction ts with
  | nil => intro acc h; rfl
  | cons t ts ih =>
      intro acc h
      have hs := saveTask_writeOk_false acc.2 t h
      have hstep : saveCountStep acc t = (acc.1 + 1, (saveTaskToDatabase acc.2 t).2) := rfl
      rw [List.foldl_cons]
      rw [ih (saveCountStep acc t) (by rw [hstep, hs]; exact h), hstep, hs]

theorem foldl_generateAllStep_true (now : Int) (ids : List Int) :
    ∀ acc : Nat × Store, acc.2.writeOk = true →
      (ids.foldl (generateAllStep now) acc).2.writeOk = true
      ∧ (ids.foldl (generateAllStep now) acc).2.tasks.length + acc.1 =
          acc.2.tasks.length + (ids.foldl (generateAllStep now) acc).1 := by
  induction ids with
  | nil => intro acc h; rw [List.foldl_nil]; exact ⟨h, rfl⟩
  | cons gid ids ih =>
      intro acc h
      have hinner := foldl_saveCountStep_true
        (generateTasksForGarden now acc.2 gid) acc h
      have hstep : generateAllStep now acc gid =
          (generateTasksForGarden now acc.2 gid).foldl saveCountStep acc := rfl
      have hrec := ih (generateAllStep now acc gid) (by rw [hstep]; exact hinner.1)
      rw [List.foldl_cons]
      refine ⟨hrec.1, ?_⟩
      have h1 := hrec.2
      have h2 := hinner.2.1
      have h3 := hinner.2.2
      rw [← hstep] at h2 h3
      omega

theorem foldl_generateAllStep_false (now : Int) (ids : List Int) :
    ∀ acc : Nat × Store, acc.2.writeOk = false →
      (ids.foldl (generateAllStep now) acc).2 = acc.2 := by
  induction ids with
  | nil => intro acc h; rfl
  | cons gid ids ih =>
      intro acc h
      have hinner := foldl_saveCountStep_false
        (generateTasksForGarden now acc.2 gid) acc h
      have hstep : generateAllStep now acc gid =
          (generateTasksForGarden now acc.2 gid).foldl saveCountStep acc := rfl
      rw [List.foldl_cons]
      rw [ih (generateAllStep now acc gid) (by rw [hstep, hinner]; exact h), hstep, hinner]

/-- C3 counterexample: on a store whose writes fail, one task is
synthesised for the germination garden, `generate_tasks_for_all_gardens`
still returns count 1, and the store gains no task at all — the returned
count does not equal the number of tasks actually written (and
`generate_tasks_for_garden` itself never writes). -/
theorem generateAll_miscounts_failed_writes_c3_counterexample :
    (generateTasksForGarden genNow germStoreNoWrite 2).length = 1
    ∧ (generateTasksForAllGardens genNow germStoreNoWrite).1 = 1
    ∧ (generateTasksForAllGardens genNow germStoreNoWrite).2.tasks = []
    ∧ germStoreNoWrite.tasks = [] :=
  ⟨by decide, by decide, by decide, by decide⟩

/-- C3 (amended): `generate_tasks_for_garden` only synthesises and returns
tasks, without writing them; persistence happens in
`generate_tasks_for_all_gardens`, whose returned count equals the number of
SYNTHESISED tasks: when every write succeeds that equals the number
written, but when writes fail the tasks are still counted (the write
failure is logged, not reported through the result) and the store is
unchanged. -/
theorem generateAll_count_vs_written_c3 :
    ∀ (now : Int) (s : Store),
      (s.writeOk = true →
        (generateTasksForAllGardens now s).2.tasks.length =
          s.tasks.length + (generateTasksForAllGardens now s).1)
      ∧ (s.writeOk = false → (generateTasksForAllGardens now s).2 = s) := by
  intro now s
  constructor
  · intro h
    have h2 := (foldl_generateAllStep_true now
      ((s.gardens.filter (fun g => g.isActive)).map (fun g => g.id)) (0, s) h).2
    have e1 : ((0, s) : Nat × Store).1 = 0 := rfl
    have e2 : ((0, s) : Nat × Store).2 = s := rfl
    rw [e1, e2] at h2
    unfold generateTasksForAllGardens
    omega
  · intro h
    have h2 := foldl_generateAllStep_false now
      ((s.gardens.filter (fun g => g.isActive)).map (fun g => g.id)) (0, s) h
    have e2 : ((0, s) : Nat × Store).2 = s := rfl
    rw [e2] at h2
    unfold generateTasksForAllGardens
    exact h2

/-- C3 witness: on the germination store with working writes, the store
gains exactly the counted number of tasks. -/
theorem generateAll_count_vs_written_c3_witness :
    (generateTasksForAllGardens genNow germStore).2.tasks.length =
      germStore.tasks.length + (generateTasksForAllGardens genNow germStore).1 :=
  (generateAll_count_vs_written_c3 genNow germStore).1 rfl

/-- C5 counterexample: for the two simultaneous 30-minute feeding tasks,
the coordinator detects FOUR resource conflicts (nutrients, water,
equipment, time) and resolves each in turn against the same lower-priority
task, shifting it by 60 + 60 + 60 + 30 = 210 minutes in total — not by the
30 minutes the claim asserts; the higher-priority task stays at 540. -/
theorem conflict_shift_cumulative_c5_counterexample :
    (resolveConflicts [feedHigh, feedMed]
        (detectConflicts [feedHigh, feedMed] feedResMap)).map (fun t => (t.id, t.due)) =
      [(1, 540), (2, 750)]
    ∧ (detectConflicts [feedHigh, feedMed] feedResMap).length = 4
    ∧ (750 : Int) ≠ 540 + 30 :=
  ⟨by decide, by decide, by decide⟩

/-- C4 counterexample: two remaining tasks of equal priority due 09:00
(id 11) and 10:00 (id 12): the batching loop's seed is the LATER-due task
12 — `reverse=True` reverses the due-date component of the key too — while
the claim says the seed is the earliest-due task 11. -/
theorem batching_seed_not_earliest_c4_counterexample :
    (createTaskBatches seedResMap [seedTaskEarly, seedTaskLate]).map
        (fun b => b.tasks.map (fun t => t.id)) = [[12, 11]]
    ∧ seedTaskEarly.priority = seedTaskLate.priority
    ∧ seedTaskEarly.due < seedTaskLate.due
    ∧ seedTaskEarly.id = 11 ∧ seedTaskLate.id = 12 :=
  ⟨by decide, by decide, by decide, by decide, by decide⟩

/-- C6 counterexample: on day 100 with two simultaneous 23:30 feeding
tasks, conflict resolution shifts the lower-priority task by 210 minutes to
03:00 of day 101, and the returned batches contain a task whose due-on lies
outside [day 100, day 101). -/
theorem batch_due_outside_window_c6_counterexample :
    ((coordinateDailyTasks coordStore6 (100 * 1440) (100 * 1440)).1.batchList.all
      (fun b => b.tasks.all (fun t =>
        decide (dayFloor (100 * 1440) ≤ t.due) &&
        decide (t.due < dayFloor (100 * 1440) + dayMinutes)))) = false := by
  decide

end GrowMaster

namespace GrowMaster

instance : IsTotal CTask batchRel :=
  ⟨by intro a b; unfold batchRel lexLe; omega⟩

instance : IsTrans CTask batchRel :=
  ⟨by intro a b c; unfold batchRel lexLe; omega⟩

/-- C4 (amended): in each iteration of the batching loop, the seed drawn
from the remaining pool is the first task under priority DESCENDING then
due-on DESCENDING — among the remaining tasks of maximal priority it is the
one with the LATEST due-on (each later batch arises from the recursive call
on the reduced pool, to which the same statement applies). -/
theorem batching_seed_latest_due_c4 :
    ∀ (resMap : List (Int × List ResourceRequirement)) (tasks : List CTask),
      tasks ≠ [] →
      ∃ b bs, createTaskBatches resMap tasks = b :: bs
        ∧ ∃ seed chosen, b.tasks = seed :: chosen
          ∧ seed ∈ tasks
          ∧ ∀ u ∈ tasks, lexLe (batchKey u) (batchKey seed) := by
  intro resMap tasks hne
  have hlen : (sortBatch tasks).length = tasks.length :=
    List.length_insertionSort _ _
  cases hs : sortBatch tasks with
  | nil =>
      rw [hs] at hlen
      simp only [List.length_nil] at hlen
      exact absurd (List.length_eq_zero.mp hlen.symm) hne
  | cons seed rest =>
      have hfuel : tasks.length = rest.length + 1 := by
        rw [hs] at hlen
        simpa using hlen.symm
      obtain ⟨chosen, remaining, hstep⟩ : ∃ chosen remaining,
          createTaskBatches resMap tasks =
            createBatchObject resMap (seed :: chosen) ::
              createTaskBatchesFuel resMap rest.length remaining := by
        unfold createTaskBatches
        rw [hfuel]
        simp only [createTaskBatchesFuel, hs]
        exact ⟨_, _, rfl⟩
      refine ⟨_, _, hstep, seed, chosen, rfl, ?_, ?_⟩
      · have hmem : seed ∈ sortBatch tasks := by
          rw [hs]; exact List.mem_cons_self _ _
        unfold sortBatch at hmem
        exact (List.mem_insertionSort _).mp hmem
      · intro u hu
        have hu' : u ∈ sortBatch tasks := by
          unfold sortBatch
          exact (List.mem_insertionSort _).mpr hu
        rw [hs] at hu'
        rcases List.mem_cons.mp hu' with h | h
        · subst h
          exact Or.inr ⟨rfl, le_refl _⟩
        · have hsorted : List.Sorted batchRel (sortBatch tasks) :=
            List.sorted_insertionSort _ _
          rw [hs] at hsorted
          exact List.rel_of_sorted_cons hsorted u h

/-- C4 witness: the amended statement applied to the concrete two-task
pool. -/
theorem batching_seed_latest_due_c4_witness :
    ∃ b bs, createTaskBatches seedResMap [seedTaskEarly, seedTaskLate] = b :: bs
      ∧ ∃ seed chosen, b.tasks = seed :: chosen
        ∧ seed ∈ [seedTaskEarly, seedTaskLate]
        ∧ ∀ u ∈ [seedTaskEarly, seedTaskLate], lexLe (batchKey u) (batchKey seed) :=
  batching_seed_latest_due_c4 seedResMap [seedTaskEarly, seedTaskLate] (by decide)

end GrowMaster

namespace GrowMaster

/-- C5 (amended): each detected resource conflict shifts the lower-priority
task forward by that conflict's minimum pair flexibility, and the shifts
ACCUMULATE across the conflicts of all shared resource types, while the
higher-priority task is never moved.  For two 30-minute feeding tasks of
different gardens due at any same instant t, four conflicts are detected
(nutrients, water and equipment with flexibility 60 each — the
`ResourceRequirement` default — and time with flexibility 30), so the
lower-priority task ends exactly 210 minutes later, not 30. -/
theorem conflict_resolution_shifts_c5 :
    ∀ t : Int,
      resolveConflicts
          [{ feedHigh with due := t }, { feedMed with due := t }]
          (detectConflicts [{ feedHigh with due := t }, { feedMed with due := t }]
            (analyzeResourceRequirements
              [{ feedHigh with due := t }, { feedMed with due := t }])) =
        [{ feedHigh with due := t }, { feedMed with due := t + 210 }] := by
  intro t
  have h30 : t < t + 30 := by omega
  simp [resolveConflicts, detectConflicts, detectResourceConflicts, usageEntries,
    analyzeResourceRequirements, reqsForTaskType, getTaskResources, dedupFirst,
    sortUsagesByStart, adjacentResourceConflicts, checkLocationConflicts,
    physicalTaskTypes, resolveConflictStep, resolveResourceConflict,
    resolveSpaceConflict, priorityOrder, feedHigh, feedMed,
    List.insertionSort, List.orderedInsert, h30]
  omega

end GrowMaster

namespace GrowMaster

theorem mem_getPendingTasksForDate {s : Store} {d : Int} {ct : CTask}
    (h : ct ∈ getPendingTasksForDate s d) :
    ∃ row ∈ s.tasks, row.id = ct.id ∧ row.due = ct.due ∧ row.isCompleted = false
      ∧ dayFloor d ≤ ct.due ∧ ct.due < dayFloor d + dayMinutes := by
  simp only [getPendingTasksForDate] at h
  replace h := (List.mem_insertionSort _).mp h
  rcases List.mem_filterMap.mp h with ⟨row, hrow, hf⟩
  cases hfind : s.gardens.find? (fun g => g.id == row.gardenId) with
  | none =>
      simp only [hfind] at hf
      exact Option.noConfusion hf
  | some g =>
      simp only [hfind] at hf
      by_cases hcond : (!row.isCompleted && g.isActive &&
          decide (dayFloor d ≤ row.due) &&
          decide (row.due < dayFloor d + dayMinutes)) = true
      · rw [if_pos hcond] at hf
        injection hf with hf
        subst hf
        simp only [Bool.and_eq_true, Bool.not_eq_true', decide_eq_true_eq] at hcond
        rcases hcond with ⟨⟨⟨hcomp, _⟩, hlo⟩, hhi⟩
        exact ⟨row, hrow, rfl, rfl, hcomp, hlo, hhi⟩
      · rw [if_neg hcond] at hf
        exact absurd hf (by simp)

theorem resolveResourceConflict_from {tasks : List CTask} {ids : List Int}
    {flex : Int} (hflex : 0 ≤ flex) {t' : CTask}
    (h : t' ∈ resolveResourceConflict tasks ids flex) :
    ∃ u ∈ tasks, u.id = t'.id ∧ u.due ≤ t'.due := by
  unfold resolveResourceConflict at h
  split at h
  · rcases List.mem_map.mp h with ⟨u, hu, hfu⟩
    split at hfu <;> split at hfu <;> subst hfu <;> refine ⟨u, hu, rfl, ?_⟩
    · show u.due ≤ u.due + flex
      omega
    · show u.due ≤ u.due
      omega
    · show u.due ≤ u.due + flex
      omega
    · show u.due ≤ u.due
      omega
  · exact ⟨t', h, rfl, le_refl _⟩

theorem resolveSpaceConflict_from {tasks : List CTask} {ids : List Int}
    {travel : Int} (htravel : 0 ≤ travel) {t' : CTask}
    (h : t' ∈ resolveSpaceConflict tasks ids travel) :
    ∃ u ∈ tasks, u.id = t'.id ∧ u.due ≤ t'.due := by
  unfold resolveSpaceConflict at h
  split at h
  · rcases List.mem_map.mp h with ⟨u, hu, hfu⟩
    split at hfu <;> subst hfu <;> refine ⟨u, hu, rfl, ?_⟩
    · show u.due ≤ u.due + travel
      omega
    · show u.due ≤ u.due
      omega
  · exact ⟨t', h, rfl, le_refl _⟩

theorem resolveConflictStep_from {tasks : List CTask} {c : Conflict}
    (hok : match c with
      | .resource _ _ _ _ flex => 0 ≤ flex
      | .space _ _ _ travel => 0 ≤ travel)
    {t' : CTask} (h : t' ∈ resolveConflictStep tasks c) :
    ∃ u ∈ tasks, u.id = t'.id ∧ u.due ≤ t'.due := by
  cases c with
  | resource res ids titles om flex =>
      exact resolveResourceConflict_from hok h
  | space ids titles locs travel =>
      exact resolveSpaceConflict_from hok h

theorem resolveConflicts_from (conflicts : List Conflict) :
    ∀ (tasks : List CTask) (t' : CTask),
      (∀ c ∈ conflicts, match c with
        | .resource _ _ _ _ flex => 0 ≤ flex
        | .space _ _ _ travel => 0 ≤ travel) →
      t' ∈ resolveConflicts tasks conflicts →
      ∃ u ∈ tasks, u.id = t'.id ∧ u.due ≤ t'.due := by
  induction conflicts with
  | nil => intro tasks t' _ h; exact ⟨t', h, rfl, le_refl _⟩
  | cons c cs ih =>
      intro tasks t' hok h
      have h' := ih (resolveConflictStep tasks c) t'
        (fun c2 hc2 => hok c2 (List.mem_cons_of_mem _ hc2)) h
      obtain ⟨u, hu, hid, hdue⟩ := h'
      obtain ⟨v, hv, hid2, hdue2⟩ :=
        resolveConflictStep_from (hok c (List.mem_cons_self _ _)) hu
      exact ⟨v, hv, hid2.trans hid, le_trans hdue2 hdue⟩

theorem reqsFor_flex_nonneg (tt : String) (dur : Int) :
    ∀ req ∈ reqsForTaskType tt dur, 0 ≤ req.flexibilityMinutes := by
  intro req h
  unfold reqsForTaskType at h
  split_ifs at h <;>
    simp only [List.mem_cons, List.not_mem_nil, or_false] at h
  · rcases h with rfl | rfl | rfl | rfl <;> simp
  · rcases h with rfl | rfl <;> simp
  · rcases h with rfl | rfl <;> simp
  · rcases h with rfl | rfl <;> simp
  · subst h; simp

theorem usageEntries_flex_nonneg {tasks : List CTask} {e : ResourceType × Usage}
    (h : e ∈ usageEntries tasks (analyzeResourceRequirements tasks)) :
    0 ≤ e.2.flexibility := by
  rcases List.mem_flatMap.mp h with ⟨t, _, he⟩
  rcases List.mem_map.mp he with ⟨req, hreq, rfl⟩
  show 0 ≤ req.flexibilityMinutes
  cases hfind : (analyzeResourceRequirements tasks).find? (fun p => p.1 == t.id) with
  | none =>
      unfold getTaskResources at hreq
      rw [hfind] at hreq
      simp at hreq
  | some p =>
      unfold getTaskResources at hreq
      rw [hfind] at hreq
      have hp := List.mem_of_find?_eq_some hfind
      unfold analyzeResourceRequirements at hp
      rcases List.mem_map.mp hp with ⟨u, _, rfl⟩
      exact reqsFor_flex_nonneg u.taskType u.estimatedDuration req hreq

theorem detectConflicts_shift_nonneg {tasks : List CTask} {c : Conflict}
    (h : c ∈ detectConflicts tasks (analyzeResourceRequirements tasks)) :
    match c with
    | .resource _ _ _ _ flex => 0 ≤ flex
    | .space _ _ _ travel => 0 ≤ travel := by
  unfold detectConflicts at h
  rcases List.mem_append.mp h with h | h
  · unfold detectResourceConflicts at h
    rcases List.mem_flatMap.mp h with ⟨rt, _, hc⟩
    unfold adjacentResourceConflicts at hc
    rcases List.mem_filterMap.mp hc with ⟨p, hp, hf⟩
    split at hf
    · injection hf with hf
      subst hf
      have hmem := List.of_mem_zip hp
      have key : ∀ u, u ∈ sortUsagesByStart
          ((List.filter (fun e => e.1 == rt)
            (usageEntries tasks (analyzeResourceRequirements tasks))).map
              (fun e => e.2)) → 0 ≤ u.flexibility := by
        intro u hu
        replace hu := (List.mem_insertionSort _).mp hu
        rcases List.mem_map.mp hu with ⟨e, he, rfl⟩
        exact usageEntries_flex_nonneg (List.mem_of_mem_filter he)
      have k1 := key _ hmem.1
      have k2 := key _ (List.mem_of_mem_tail hmem.2)
      show 0 ≤ min p.1.flexibility p.2.flexibility
      exact le_min k1 k2
    · simp at hf
  · unfold checkLocationConflicts at h
    rcases List.mem_filterMap.mp h with ⟨p, _, hf⟩
    split at hf
    · split at hf
      · injection hf with hf
        subst hf
        show (0 : Int) ≤ 15
        norm_num
      · simp at hf
    · simp at hf

end GrowMaster

namespace GrowMaster

theorem eraseAll_subset : ∀ (l acc : List CTask) (x : CTask),
    x ∈ eraseAll acc l → x ∈ acc := by
  intro l
  induction l with
  | nil => intro acc x h; exact h
  | cons y ys ih =>
      intro acc x h
      have h' : x ∈ eraseAll (acc.erase y) ys := h
      exact List.mem_of_mem_erase (ih (acc.erase y) x h')

theorem createTaskBatchesFuel_mem (resMap : List (Int × List ResourceRequirement)) :
    ∀ (fuel : Nat) (tasks : List CTask) (b : TaskBatch),
      b ∈ createTaskBatchesFuel resMap fuel tasks → ∀ t ∈ b.tasks, t ∈ tasks := by
  intro fuel
  induction fuel with
  | zero => intro tasks b hb; simp [createTaskBatchesFuel] at hb
  | succ n ih =>
      intro tasks b hb t ht
      cases hs : sortBatch tasks with
      | nil =>
          simp only [createTaskBatchesFuel, hs] at hb
          exact absurd hb (List.not_mem_nil _)
      | cons seed rest =>
          simp only [createTaskBatchesFuel, hs] at hb
          have hrest : ∀ u ∈ rest, u ∈ tasks := by
            intro u hu
            have hu2 : u ∈ sortBatch tasks := by
              rw [hs]; exact List.mem_cons_of_mem _ hu
            unfold sortBatch at hu2
            exact (List.mem_insertionSort _).mp hu2
          have hseed : seed ∈ tasks := by
            have hs2 : seed ∈ sortBatch tasks := by
              rw [hs]; exact List.mem_cons_self _ _
            unfold sortBatch at hs2
            exact (List.mem_insertionSort _).mp hs2
          rcases List.mem_cons.mp hb with rfl | hb2
          · simp only [createBatchObject] at ht
            rcases List.mem_cons.mp ht with rfl | htc
            · exact hseed
            · rcases List.mem_map.mp htc with ⟨pp, hpp, rfl⟩
              have h1 := List.mem_of_mem_take hpp
              have h2 := (List.mem_insertionSort _).mp h1
              rcases List.mem_map.mp h2 with ⟨u, hu, rfl⟩
              exact hrest u (List.mem_of_mem_filter hu)
          · have h3 := ih _ b hb2 t ht
            exact hrest t (eraseAll_subset _ _ t h3)

theorem createTaskBatches_mem {resMap : List (Int × List ResourceRequirement)}
    {tasks : List CTask} {b : TaskBatch}
    (hb : b ∈ createTaskBatches resMap tasks) : ∀ t ∈ b.tasks, t ∈ tasks :=
  createTaskBatchesFuel_mem resMap tasks.length tasks b hb

theorem enumerateFrom_mem {α : Type} : ∀ (l : List α) (i : Nat) (p : Nat × α),
    p ∈ enumerateFrom i l → p.2 ∈ l := by
  intro l
  induction l with
  | nil => intro i p h; exact absurd h (List.not_mem_nil _)
  | cons x xs ih =>
      intro i p h
      rcases List.mem_cons.mp h with rfl | h2
      · exact List.mem_cons_self _ _
      · exact List.mem_cons_of_mem _ (ih (i + 1) p h2)

theorem scheduleBatches_mem : ∀ (l : List (Q × Nat × TaskBatch)) (cur : Int)
    (b : BatchInfo), b ∈ scheduleBatches l cur →
      ∃ trip ∈ l, b.tasks = trip.2.2.tasks := by
  intro l
  induction l with
  | nil => intro cur b h; simp [scheduleBatches] at h
  | cons x xs ih =>
      intro cur b h
      obtain ⟨sc, i, batch⟩ := x
      simp only [scheduleBatches] at h
      rcases List.mem_cons.mp h with rfl | h2
      · exact ⟨(sc, i, batch), List.mem_cons_self _ _, rfl⟩
      · obtain ⟨trip, htrip, hts⟩ := ih _ b h2
        exact ⟨trip, List.mem_cons_of_mem _ htrip, hts⟩

theorem optimizeExecutionOrder_mem {batches : List TaskBatch} {now : Int}
    {b : BatchInfo} (hb : b ∈ optimizeExecutionOrder batches now) :
    ∃ batch ∈ batches, b.tasks = batch.tasks := by
  simp only [optimizeExecutionOrder] at hb
  obtain ⟨trip, htrip, hts⟩ := scheduleBatches_mem _ _ _ hb
  replace htrip := (List.mem_insertionSort _).mp htrip
  rcases List.mem_map.mp htrip with ⟨p, hp, rfl⟩
  exact ⟨p.2, enumerateFrom_mem _ _ _ hp, hts⟩

/-- C6 (amended): every task of every batch returned by
`coordinate_daily_tasks(d)` ORIGINATES from a stored pending row whose
persisted due-on lies within [date(d), date(d)+1day); the in-plan copy's
due-on never decreases, but conflict resolution may shift it past the
window's upper bound (as the counterexample shows), so the bound holds for
the stored due-on rather than the in-plan one. -/
theorem coordinate_batch_tasks_from_window_c6 :
    ∀ (s : Store) (d now : Int),
      ∀ b ∈ (coordinateDailyTasks s d now).1.batchList, ∀ ct ∈ b.tasks,
        ∃ row ∈ s.tasks, row.id = ct.id ∧ row.isCompleted = false
          ∧ dayFloor d ≤ row.due ∧ row.due < dayFloor d + dayMinutes
          ∧ row.due ≤ ct.due := by
  intro s d now b hb ct hct
  by_cases hemp : ((getPendingTasksForDateS s d).1.isEmpty = true)
  · simp only [coordinateDailyTasks] at hb
    rw [if_pos hemp] at hb
    simp [CoordOutcome.batchList] at hb
  · simp only [coordinateDailyTasks] at hb
    rw [if_neg hemp] at hb
    simp only [CoordOutcome.batchList] at hb
    obtain ⟨batch, hbatch, htasks⟩ := optimizeExecutionOrder_mem hb
    rw [htasks] at hct
    have hct2 := createTaskBatches_mem hbatch ct hct
    obtain ⟨u, hu, hid, hdue⟩ := resolveConflicts_from _ _ _
      (fun c hc => by
        cases c with
        | resource r i t o flex => exact detectConflicts_shift_nonneg hc
        | space i t l travel => exact detectConflicts_shift_nonneg hc) hct2
    obtain ⟨row, hrow, hrid, hrdue, hrcomp, hlo, hhi⟩ :=
      mem_getPendingTasksForDate hu
    refine ⟨row, hrow, ?_, hrcomp, ?_, ?_, ?_⟩
    · rw [hrid, hid]
    · rw [hrdue]; exact hlo
    · rw [hrdue]; exact hhi
    · rw [hrdue]
      exact hdue

/-- C6 witness: the amended statement applied to the first task of the
first batch of the concrete late-evening scenario. -/
theorem coordinate_batch_tasks_from_window_c6_witness :
    ∃ row ∈ coordStore6.tasks,
      row.id = (((coordinateDailyTasks coordStore6 (100 * 1440)
          (100 * 1440)).1.batchList.headD default).tasks.headD default).id
      ∧ row.isCompleted = false
      ∧ dayFloor (100 * 1440) ≤ row.due
      ∧ row.due < dayFloor (100 * 1440) + dayMinutes
      ∧ row.due ≤ (((coordinateDailyTasks coordStore6 (100 * 1440)
          (100 * 1440)).1.batchList.headD default).tasks.headD default).due :=
  coordinate_batch_tasks_from_window_c6 coordStore6 (100 * 1440) (100 * 1440)
    ((coordinateDailyTasks coordStore6 (100 * 1440)
      (100 * 1440)).1.batchList.headD default)
    (by decide)
    (((coordinateDailyTasks coordStore6 (100 * 1440)
      (100 * 1440)).1.batchList.headD default).tasks.headD default)
    (by decide)

end GrowMaster
